import Mathlib

/-!
# Verification of the PostgreSQL connection-lifecycle manager

Shallow embedding of `app_api_server/internal/database/driver.go`:
configuration loading (`LoadDatabaseConfig`), connection-string building
(`BuildConnectionString`), validation (`validateDatabaseConfig`), driver
construction (`NewPostgreSQLDriver`, `NewPostgreSQLDriverWithConfig`) and the
connection lifecycle (`Connect`, `Close`, `IsConnected`, `Reconnect`,
`GetDB`, `GetConfig`, `GetConnectionStats`).

External effects are made explicit:
* the process environment is a function `Env := String → String`, where the
  empty string means "unset" (exactly the observable behaviour of
  `os.Getenv`); `godotenv.Load` only overlays this map before reading, so the
  model takes the post-overlay environment;
* the pool of live `*sql.DB` handles is a `World`: an allocation counter and
  the list of currently open pooled handles with their pool limits;
* non-deterministic outcomes of the outside world (does `sql.Open` fail,
  does `Ping` reach the server, does the underlying close report an error)
  are oracle booleans threaded into each operation.
-/

namespace SiftDB

/-- Go struct `DatabaseConfig` (driver.go lines 18-25). -/
structure DatabaseConfig where
  Host : String
  Port : Int
  User : String
  Password : String
  Database : String
  SSLMode : String
deriving DecidableEq, Repr

/-- A pooled connection handle (`*sql.DB`) as the world sees it: its identity
and the pool limits configured on it. -/
structure PoolHandle where
  id : Nat
  maxOpenConns : Nat
  maxIdleConns : Nat
  connMaxLifetimeSec : Nat
deriving DecidableEq, Repr

/-- The external connection world: an allocation counter for fresh handles
and the list of handles currently open (live). -/
structure World where
  nextId : Nat
  handles : List PoolHandle
deriving DecidableEq, Repr

/-- Closing the underlying pool of handle `h` (`(*sql.DB).Close`): the handle
leaves the set of open handles. -/
def World.closeHandle (w : World) (h : Nat) : World :=
  { w with handles := w.handles.filter (fun ph => ph.id ≠ h) }

/-- Is handle `h` currently open in the world? -/
def World.isOpen (w : World) (h : Nat) : Bool :=
  w.handles.any (fun ph => ph.id = h)

/-- Go struct `PostgreSQLDriver` (driver.go lines 30-33): the held config and
the stored handle field `db` (`none` models a nil `*sql.DB`). -/
structure PostgreSQLDriver where
  config : DatabaseConfig
  db : Option Nat
deriving DecidableEq, Repr

/-- Configuration errors surfaced by the loader, the validator and the
constructors (the Go code returns `fmt.Errorf` values; only their identity
matters here). -/
inductive ConfigError where
  | invalidPort
  | missingUser
  | missingPassword
  | missingDatabase
  | nilConfig
  | emptyHost
  | portOutOfRange
  | emptyUser
  | emptyPassword
  | emptyDatabase
  | invalidSSLMode (mode : String)
deriving DecidableEq, Repr

/-- Connection-lifecycle errors (`Connect`, `Close`). -/
inductive ConnectionError where
  | openFailed
  | pingFailed
  | closeFailed
deriving DecidableEq, Repr

/-- The process environment as observed through `os.Getenv`: unset and empty
are indistinguishable, both are `""`. -/
def Env : Type := String → String

/-! ## strconv.Atoi -/

/-- Value of a digit string, most significant first. -/
def digitsToNat (cs : List Char) : Nat :=
  cs.foldl (fun a c => 10 * a + (c.toNat - 48)) 0

/-- Go `strconv.Atoi` accepts an optional sign followed by at least one
base-10 digit. -/
def decDigits (cs : List Char) : Bool :=
  !cs.isEmpty && cs.all (fun c => c.isDigit)

/-- `math.MaxInt64`: Go `int` is 64-bit on the targets this code runs on. -/
def maxInt64 : Nat := 9223372036854775807

/-- Go `strconv.Atoi s`: optional `+`/`-` sign, then base-10 digits; errors
(`none`) on the empty string, a bare sign, a non-digit character, or a value
outside the 64-bit signed range. -/
def Atoi (s : String) : Option Int :=
  match s.data with
  | '+' :: rest =>
      if decDigits rest && decide (digitsToNat rest ≤ maxInt64) then
        some (digitsToNat rest : Int)
      else none
  | '-' :: rest =>
      if decDigits rest && decide (digitsToNat rest ≤ maxInt64 + 1) then
        some (-(digitsToNat rest : Int))
      else none
  | cs =>
      if decDigits cs && decide (digitsToNat cs ≤ maxInt64) then
        some (digitsToNat cs : Int)
      else none

/-! ## LoadDatabaseConfig (driver.go lines 38-89) -/

/-- `LoadDatabaseConfig` reads the six `DB_*` settings from the (post
`.env`-overlay) environment, defaults host/port/sslMode, requires
user/password/database, and parses the port with `strconv.Atoi`. -/
def LoadDatabaseConfig (env : Env) : Except ConfigError DatabaseConfig :=
  let host := if env "DB_HOST" = "" then "localhost" else env "DB_HOST"
  let portStr := if env "DB_PORT" = "" then "5432" else env "DB_PORT"
  match Atoi portStr with
  | none => .error .invalidPort
  | some port =>
    if env "DB_USER" = "" then .error .missingUser
    else if env "DB_PASSWORD" = "" then .error .missingPassword
    else if env "DB_NAME" = "" then .error .missingDatabase
    else
      let sslMode := if env "DB_SSL_MODE" = "" then "require" else env "DB_SSL_MODE"
      .ok { Host := host, Port := port, User := env "DB_USER",
            Password := env "DB_PASSWORD", Database := env "DB_NAME",
            SSLMode := sslMode }

/-! ## BuildConnectionString (driver.go lines 94-104) -/

/-- `BuildConnectionString`: `fmt.Sprintf` of the six fields in the fixed
order host, port, user, password, dbname, sslmode, single-space separated,
each interpolated verbatim (`%s`/`%d`). -/
def DatabaseConfig.BuildConnectionString (c : DatabaseConfig) : String :=
  "host=" ++ c.Host ++ " port=" ++ toString c.Port ++ " user=" ++ c.User ++
    " password=" ++ c.Password ++ " dbname=" ++ c.Database ++
    " sslmode=" ++ c.SSLMode

/-! ## Construction and validation (driver.go lines 109-187) -/

/-- The SSL modes the validator accepts (driver.go line 173). -/
def validSSLModes : List String := ["disable", "require", "verify-ca", "verify-full"]

/-- `validateDatabaseConfig` (driver.go lines 150-187): checks host, port
range, user, password, database, then loops over `validSSLModes` and rejects
any other mode. `none` means valid. -/
def validateDatabaseConfig (config : DatabaseConfig) : Option ConfigError :=
  if config.Host = "" then some .emptyHost
  else if config.Port ≤ 0 ∨ config.Port > 65535 then some .portOutOfRange
  else if config.User = "" then some .emptyUser
  else if config.Password = "" then some .emptyPassword
  else if config.Database = "" then some .emptyDatabase
  else if validSSLModes.contains config.SSLMode then none
  else some (.invalidSSLMode config.SSLMode)

/-- `NewPostgreSQLDriver` (driver.go lines 109-124): loads the config from
the environment and wraps it in a driver with a nil handle; no validation
beyond what the loader does. -/
def NewPostgreSQLDriver (env : Env) : Except ConfigError PostgreSQLDriver :=
  match LoadDatabaseConfig env with
  | .error e => .error e
  | .ok config => .ok { config := config, db := none }

/-- `NewPostgreSQLDriverWithConfig` (driver.go lines 129-145): rejects a nil
config, validates, and wraps the config in a driver with a nil handle. -/
def NewPostgreSQLDriverWithConfig (config : Option DatabaseConfig) :
    Except ConfigError PostgreSQLDriver :=
  match config with
  | none => .error .nilConfig
  | some c =>
    match validateDatabaseConfig c with
    | some e => .error e
    | none => .ok { config := c, db := none }

/-! ## Connection lifecycle (driver.go lines 192-287) -/

/-- `Connect` (driver.go lines 192-220): builds the connection string, opens
a pooled handle (outcome oracle `openOk`), configures the pool limits
(max open 25, max idle 5, max lifetime 5 minutes), pings (oracle `pingOk`);
on ping failure the just-opened handle is closed and the stored field is not
assigned; on success the stored field becomes the new handle. -/
def PostgreSQLDriver.Connect (openOk pingOk : Bool) (d : PostgreSQLDriver)
    (w : World) : Option ConnectionError × PostgreSQLDriver × World :=
  let _connectionString := d.config.BuildConnectionString
  if !openOk then (some .openFailed, d, w)
  else
    let h := w.nextId
    let w1 : World := ⟨w.nextId + 1, ⟨h, 25, 5, 5 * 60⟩ :: w.handles⟩
    if !pingOk then (some .pingFailed, d, w1.closeHandle h)
    else (none, { d with db := some h }, w1)

/-- `GetDB` (driver.go lines 225-227). -/
def PostgreSQLDriver.GetDB (d : PostgreSQLDriver) : Option Nat := d.db

/-- `GetConfig` (driver.go lines 231-233). -/
def PostgreSQLDriver.GetConfig (d : PostgreSQLDriver) : DatabaseConfig := d.config

/-- `Close` (driver.go lines 238-246): if a handle is stored, close its
underlying pool (which leaves the open set even if the close call reports an
error, oracle `closeErr`) and surface the error; the stored field is never
cleared. With no stored handle it is a no-op returning no error. -/
def PostgreSQLDriver.Close (closeErr : Bool) (d : PostgreSQLDriver)
    (w : World) : Option ConnectionError × PostgreSQLDriver × World :=
  match d.db with
  | none => (none, d, w)
  | some h =>
    let w1 := w.closeHandle h
    if closeErr then (some .closeFailed, d, w1) else (none, d, w1)

/-- `IsConnected` (driver.go lines 251-262): false with no stored handle;
otherwise pings the stored handle — a ping on a closed pool always fails,
and on an open pool it succeeds exactly when the database is reachable
(oracle `netOk`). -/
def PostgreSQLDriver.IsConnected (netOk : Bool) (d : PostgreSQLDriver)
    (w : World) : Bool :=
  match d.db with
  | none => false
  | some h => w.isOpen h && netOk

/-- `Reconnect` (driver.go lines 267-277): closes the existing handle's pool
if one is stored (the close error is discarded), then runs `Connect`. -/
def PostgreSQLDriver.Reconnect (openOk pingOk : Bool) (d : PostgreSQLDriver)
    (w : World) : Option ConnectionError × PostgreSQLDriver × World :=
  match d.db with
  | none => d.Connect openOk pingOk w
  | some h => d.Connect openOk pingOk (w.closeHandle h)

/-- Go `sql.DBStats` (all counters); the zero value is the all-zero
snapshot. -/
structure DBStats where
  MaxOpenConnections : Int := 0
  OpenConnections : Int := 0
  InUse : Int := 0
  Idle : Int := 0
  WaitCount : Int := 0
  WaitDurationNs : Int := 0
  MaxIdleClosed : Int := 0
  MaxIdleTimeClosed : Int := 0
  MaxLifetimeClosed : Int := 0
deriving DecidableEq, Repr

/-- `GetConnectionStats` (driver.go lines 282-287): the zero snapshot with no
stored handle, otherwise the live pool snapshot (supplied by the world as the
oracle `statsOf`). -/
def PostgreSQLDriver.GetConnectionStats (statsOf : Nat → DBStats)
    (d : PostgreSQLDriver) : DBStats :=
  match d.db with
  | none => {}
  | some h => statsOf h

/-! ## Operation sequences on one manager -/

/-- One call on the manager, with the world's outcome oracles resolved. -/
inductive Op where
  | connect (openOk pingOk : Bool)
  | close (closeErr : Bool)
  | reconnect (openOk pingOk : Bool)
  | isConnectedQ (netOk : Bool)
  | getDBQ
  | getConfigQ
  | statsQ
deriving DecidableEq, Repr

/-- State effect of one call (queries do not mutate). -/
def step : Op → PostgreSQLDriver × World → PostgreSQLDriver × World
  | .connect a b, (d, w) => (d.Connect a b w).2
  | .close e, (d, w) => (d.Close e w).2
  | .reconnect a b, (d, w) => (d.Reconnect a b w).2
  | .isConnectedQ _, s => s
  | .getDBQ, s => s
  | .getConfigQ, s => s
  | .statsQ, s => s

/-- Run a sequence of calls from a state. -/
def run (ops : List Op) (s : PostgreSQLDriver × World) : PostgreSQLDriver × World :=
  ops.foldl (fun s op => step op s) s

/-- `true` when the call is not a successful connection attempt (its
connect-part failed, or it is not a connect at all). -/
def notSuccessfulConnect : Op → Bool
  | .connect a b => !(a && b)
  | .reconnect a b => !(a && b)
  | _ => true

/-- The spec's full constraint table for `DatabaseConfig`: host, user,
password, database non-empty; port in 1..65535; sslMode one of disable,
require, verify-ca, verify-full. -/
def ConfigOK (c : DatabaseConfig) : Prop :=
  c.Host ≠ "" ∧ 1 ≤ c.Port ∧ c.Port ≤ 65535 ∧ c.User ≠ "" ∧
    c.Password ≠ "" ∧ c.Database ≠ "" ∧ c.SSLMode ∈ validSSLModes

instance : DecidablePred ConfigOK := fun c => by
  unfold ConfigOK; infer_instance

/-- Every open handle in the world is the one the manager stores (no live
handle is unreachable), there is at most one of them, and all open handle
ids are below the allocation counter. -/
def Inv (s : PostgreSQLDriver × World) : Prop :=
  (∀ ph ∈ s.2.handles, s.1.db = some ph.id ∧ ph.id < s.2.nextId) ∧
    s.2.handles.length ≤ 1

/-- Guard under which `Connect` is invoked in a sequence: never while the
stored handle is still open. `Reconnect` needs no guard (it closes first). -/
def safeOps : List Op → PostgreSQLDriver × World → Bool
  | [], _ => true
  | op :: ops, s =>
    (match op with
     | .connect _ _ =>
       match s.1.db with
       | none => true
       | some h => !s.2.isOpen h
     | _ => true) && safeOps ops (step op s)

/-- The spec's `Reconnect` decomposition: run `Close`, discard its error,
then run `Connect` from the resulting state. -/
def closeThenConnect (openOk pingOk closeErr : Bool) (d : PostgreSQLDriver)
    (w : World) : Option ConnectionError × PostgreSQLDriver × World :=
  let r := d.Close closeErr w
  r.2.1.Connect openOk pingOk r.2.2

/-- A fixed valid config used for concrete runs. -/
def cfg0 : DatabaseConfig :=
  { Host := "localhost", Port := 5432, User := "testuser",
    Password := "testpass", Database := "testdb", SSLMode := "require" }

/-- A freshly constructed manager holding `cfg0`. -/
def d0 : PostgreSQLDriver := { config := cfg0, db := none }

/-- The world before any handle was opened. -/
def w0 : World := ⟨0, []⟩

/-- An environment with the three required settings and `DB_PORT=70000`: the
port parses but is outside 1..65535. -/
def env0 : Env := fun n =>
  if n = "DB_USER" then "u"
  else if n = "DB_PASSWORD" then "p"
  else if n = "DB_NAME" then "d"
  else if n = "DB_PORT" then "70000"
  else ""

/-- The config the loader produces from `env0`. -/
def badPortCfg : DatabaseConfig :=
  { Host := "localhost", Port := 70000, User := "u",
    Password := "p", Database := "d", SSLMode := "require" }

/-- A manager that stores handle 0 while handle 0 is open: the state right
after one successful `Connect` from `(d0, w0)`. -/
def d1 : PostgreSQLDriver := { config := cfg0, db := some 0 }

/-- The world right after one successful `Connect` from `(d0, w0)`. -/
def w1 : World := ⟨1, [⟨0, 25, 5, 5 * 60⟩]⟩

/-- Did the computation succeed? (`err == nil` on the Go side). -/
def exceptIsOk {ε α : Type} : Except ε α → Bool
  | .ok _ => true
  | .error _ => false

/-- An environment with only the three required settings. -/
def envReq : Env := fun n =>
  if n = "DB_USER" then "u"
  else if n = "DB_PASSWORD" then "p"
  else if n = "DB_NAME" then "d"
  else ""

/-- The config the loader produces from `envReq`: all defaults applied. -/
def cfgReq : DatabaseConfig :=
  { Host := "localhost", Port := 5432, User := "u", Password := "p",
    Database := "d", SSLMode := "require" }

instance instDecidableInv (s : PostgreSQLDriver × World) : Decidable (Inv s) := by
  unfold Inv; infer_instance

/-! ## Shared lemmas -/

/-- The validator accepts a config exactly when the full constraint table of
the spec holds. -/
theorem validate_none_iff (c : DatabaseConfig) :
    validateDatabaseConfig c = none ↔ ConfigOK c := by
  unfold validateDatabaseConfig ConfigOK
  split_ifs with h1 h2 h3 h4 h5 h6 <;>
    simp_all [List.elem_iff] <;> omega

/-- A config the loader returns has non-empty host, user, password and
database (but nothing constrains its port range or SSL mode). -/
theorem load_ok_fields (env : Env) (cfg : DatabaseConfig)
    (h : LoadDatabaseConfig env = .ok cfg) :
    cfg.Host ≠ "" ∧ cfg.User ≠ "" ∧ cfg.Password ≠ "" ∧ cfg.Database ≠ "" := by
  simp only [LoadDatabaseConfig] at h
  split at h
  · cases h
  · split_ifs at h with hu hpw hn <;>
      (injection h with h; subst h; simp_all)

/-- `Close` never changes the driver record (in particular it never clears
the stored handle field). -/
theorem close_driver_eq (e : Bool) (d : PostgreSQLDriver) (w : World) :
    (d.Close e w).2.1 = d := by
  unfold PostgreSQLDriver.Close
  cases d.db <;> [rfl; (dsimp only; split_ifs <;> rfl)]

/-- A failed connection attempt leaves the driver record unchanged. -/
theorem connect_fail_driver_eq (a b : Bool) (hab : (a && b) = false)
    (d : PostgreSQLDriver) (w : World) : (d.Connect a b w).2.1 = d := by
  unfold PostgreSQLDriver.Connect
  cases a with
  | false => rfl
  | true =>
    cases b with
    | false => rfl
    | true => simp at hab

/-- A failed reconnection attempt leaves the driver record unchanged. -/
theorem reconnect_fail_driver_eq (a b : Bool) (hab : (a && b) = false)
    (d : PostgreSQLDriver) (w : World) : (d.Reconnect a b w).2.1 = d := by
  unfold PostgreSQLDriver.Reconnect
  cases hdb : d.db <;> dsimp only <;> exact connect_fail_driver_eq a b hab d _

/-- After closing handle `h`, the handle is no longer open. -/
theorem isOpen_closeHandle (w : World) (h : Nat) :
    (w.closeHandle h).isOpen h = false := by
  simp only [World.closeHandle, World.isOpen, Bool.eq_false_iff, ne_eq,
    List.any_eq_true, List.mem_filter]
  rintro ⟨ph, ⟨hmem, hne⟩, heq⟩
  simp at hne heq
  exact hne heq

/-- Closing a freshly consed handle removes exactly it when no other open
handle carries its id. -/
theorem closeHandle_cons_fresh (m n : Nat) (ph0 : PoolHandle) (hs : List PoolHandle)
    (hid : ph0.id = n) (hfresh : ∀ ph ∈ hs, ph.id ≠ n) :
    World.closeHandle ⟨m, ph0 :: hs⟩ n = ⟨m, hs⟩ := by
  unfold World.closeHandle
  have h1 : (ph0 :: hs).filter (fun ph => ph.id ≠ n) = hs := by
    rw [List.filter_cons]
    simp [hid]
    exact fun a ha => hfresh a ha
  simp only at h1 ⊢
  rw [h1]

/-- `Inv` survives closing any handle. -/
theorem inv_closeHandle (d : PostgreSQLDriver) (w : World) (h : Nat)
    (hinv : Inv (d, w)) : Inv (d, w.closeHandle h) := by
  unfold Inv at hinv ⊢
  obtain ⟨h1, h2⟩ := hinv
  refine ⟨fun ph hm => h1 ph (List.mem_of_mem_filter hm), ?_⟩
  exact le_trans (List.length_filter_le _ _) h2

/-- Under `Inv`, the connect guard (stored handle absent or already closed)
forces the open set to be empty. -/
theorem inv_guard_handles_nil (d : PostgreSQLDriver) (w : World) (hinv : Inv (d, w))
    (hguard : (match d.db with
               | none => true
               | some h => !w.isOpen h) = true) :
    w.handles = [] := by
  cases hh : w.handles with
  | nil => rfl
  | cons ph t =>
    exfalso
    have hph := hinv.1 ph (by rw [hh]; exact List.mem_cons_self ph t)
    cases hdb : d.db with
    | none => rw [hdb] at hph; exact Option.noConfusion hph.1
    | some h0 =>
      rw [hdb] at hguard hph
      have hid : h0 = ph.id := Option.some.inj hph.1
      have hop : w.isOpen h0 = false := by simpa using hguard
      have : w.isOpen h0 = true := by
        unfold World.isOpen
        rw [hh]
        simp [hid]
      simp_all

/-- A guarded `Connect` preserves `Inv`. -/
theorem inv_connect (a b : Bool) (d : PostgreSQLDriver) (w : World)
    (hinv : Inv (d, w))
    (hguard : (match d.db with
               | none => true
               | some h => !w.isOpen h) = true) :
    Inv ((d.Connect a b w).2) := by
  have hfresh : ∀ ph ∈ w.handles, ph.id ≠ w.nextId :=
    fun ph hm => Nat.ne_of_lt (hinv.1 ph hm).2
  cases a with
  | false => exact hinv
  | true =>
    cases b with
    | false =>
      show Inv (d, World.closeHandle ⟨w.nextId + 1, ⟨w.nextId, 25, 5, 5 * 60⟩ :: w.handles⟩ w.nextId)
      rw [closeHandle_cons_fresh _ _ _ _ rfl hfresh]
      unfold Inv at hinv ⊢
      exact ⟨fun ph hm => ⟨(hinv.1 ph hm).1, Nat.lt_succ_of_lt (hinv.1 ph hm).2⟩, hinv.2⟩
    | true =>
      have hnil := inv_guard_handles_nil d w hinv hguard
      show Inv ({ d with db := some w.nextId },
        (⟨w.nextId + 1, ⟨w.nextId, 25, 5, 5 * 60⟩ :: w.handles⟩ : World))
      rw [hnil]
      unfold Inv
      constructor
      · intro ph hm
        rcases List.mem_singleton.mp hm with rfl
        exact ⟨rfl, Nat.lt_succ_self _⟩
      · simp

/-- `Close` preserves `Inv`. -/
theorem inv_close (e : Bool) (d : PostgreSQLDriver) (w : World)
    (hinv : Inv (d, w)) : Inv ((d.Close e w).2) := by
  unfold PostgreSQLDriver.Close
  cases hdb : d.db with
  | none => exact hinv
  | some h =>
    dsimp only
    have := inv_closeHandle d w h hinv
    cases e <;> simpa using this

/-- `Reconnect` preserves `Inv` unconditionally (it closes before opening). -/
theorem inv_reconnect (a b : Bool) (d : PostgreSQLDriver) (w : World)
    (hinv : Inv (d, w)) : Inv ((d.Reconnect a b w).2) := by
  unfold PostgreSQLDriver.Reconnect
  cases hdb : d.db with
  | none =>
    dsimp only
    exact inv_connect a b d w hinv (by rw [hdb])
  | some h =>
    dsimp only
    refine inv_connect a b d (w.closeHandle h) (inv_closeHandle d w h hinv) ?_
    rw [hdb]
    simp [isOpen_closeHandle]

/-- The stored handle field stays absent along any run whose connection
attempts all fail. -/
theorem run_db_none (ops : List Op) (d : PostgreSQLDriver) (w : World)
    (hdb : d.db = none) (hops : ∀ op ∈ ops, notSuccessfulConnect op = true) :
    (run ops (d, w)).1.db = none := by
  induction ops generalizing d w with
  | nil => exact hdb
  | cons op ops ih =>
    have hrest : ∀ o ∈ ops, notSuccessfulConnect o = true :=
      fun o ho => hops o (List.mem_cons_of_mem op ho)
    have hop := hops op (List.mem_cons_self op ops)
    show (run ops (step op (d, w))).1.db = none
    cases op with
    | connect a b =>
      have hab : (a && b) = false := by
        cases a <;> cases b <;> simp_all [notSuccessfulConnect]
      exact ih _ _ (by
        show (d.Connect a b w).2.1.db = none
        rw [connect_fail_driver_eq a b hab d w]; exact hdb) hrest
    | close e =>
      exact ih _ _ (by
        show (d.Close e w).2.1.db = none
        rw [close_driver_eq e d w]; exact hdb) hrest
    | reconnect a b =>
      have hab : (a && b) = false := by
        cases a <;> cases b <;> simp_all [notSuccessfulConnect]
      exact ih _ _ (by
        show (d.Reconnect a b w).2.1.db = none
        rw [reconnect_fail_driver_eq a b hab d w]; exact hdb) hrest
    | isConnectedQ n => exact ih _ _ hdb hrest
    | getDBQ => exact ih _ _ hdb hrest
    | getConfigQ => exact ih _ _ hdb hrest
    | statsQ => exact ih _ _ hdb hrest

/-! ## Claims -/

/-- Claim C1: `Connect` is all-or-nothing. When `sql.Open` fails nothing
changes; when the ping fails the just-opened handle is closed, a
`ConnectionError` is returned and the driver record (in particular the stored
handle field) is exactly what it was before; on success the stored handle
becomes the newly opened one, which is open and carries the pool limits
max open 25, max idle 5, max lifetime 5 minutes (300 s). -/
theorem connect_all_or_nothing (d : PostgreSQLDriver) (w : World) (a b : Bool)
    (hfresh : ∀ ph ∈ w.handles, ph.id ≠ w.nextId) :
    (a = false → d.Connect a b w = (some .openFailed, d, w)) ∧
    (a = true → b = false →
      d.Connect a b w = (some .pingFailed, d, ⟨w.nextId + 1, w.handles⟩)) ∧
    (a = true → b = true →
      d.Connect a b w =
        (none, { d with db := some w.nextId },
          ⟨w.nextId + 1, ⟨w.nextId, 25, 5, 5 * 60⟩ :: w.handles⟩)) := by
  refine ⟨fun ha => ?_, fun ha hb => ?_, fun ha hb => ?_⟩
  · subst ha; rfl
  · subst ha; subst hb
    show (some ConnectionError.pingFailed, d,
      World.closeHandle ⟨w.nextId + 1, ⟨w.nextId, 25, 5, 5 * 60⟩ :: w.handles⟩ w.nextId) =
      (some ConnectionError.pingFailed, d, ⟨w.nextId + 1, w.handles⟩)
    rw [closeHandle_cons_fresh _ _ _ _ rfl hfresh]
  · subst ha; subst hb; rfl

/-- Witness for C1: a failing ping and a succeeding connect at concrete
inputs. -/
theorem connect_all_or_nothing_witness :
    d0.Connect true false w0 = (some ConnectionError.pingFailed, d0, ⟨1, []⟩) ∧
    d0.Connect true true w0 =
      (none, { d0 with db := some 0 }, ⟨1, [⟨0, 25, 5, 5 * 60⟩]⟩) :=
  ⟨(connect_all_or_nothing d0 w0 true false (by decide)).2.1 rfl rfl,
   (connect_all_or_nothing d0 w0 true true (by decide)).2.2 rfl rfl⟩

/-- Counterexample to C2 as stated: from the environment path
(`NewPostgreSQLDriver`) a config with port 70000 — outside 1..65535, hence
violating the constraint table — reaches a driver, and `Connect` on that
driver proceeds to a connection attempt (here even a successful one). -/
theorem loader_invalid_config_counterexample :
    NewPostgreSQLDriver env0 = .ok { config := badPortCfg, db := none } ∧
    ¬ ConfigOK badPortCfg ∧
    (PostgreSQLDriver.mk badPortCfg none).Connect true true w0 =
      (none, { config := badPortCfg, db := some 0 },
        ⟨1, [⟨0, 25, 5, 5 * 60⟩]⟩) :=
  ⟨rfl, by decide, rfl⟩

/-- Claim C2, amended: only the `NewPostgreSQLDriverWithConfig` path
guarantees the full constraint table when `Connect` is attempted; the
`NewPostgreSQLDriver` (environment) path guarantees non-empty host, user,
password and database, but checks neither the port range nor SSL-mode
membership. -/
theorem constructed_config_validation :
    (∀ c d, NewPostgreSQLDriverWithConfig (some c) = .ok d →
      ConfigOK d.config ∧ d.db = none) ∧
    (∀ (env : Env) d, NewPostgreSQLDriver env = .ok d →
      d.config.Host ≠ "" ∧ d.config.User ≠ "" ∧ d.config.Password ≠ "" ∧
        d.config.Database ≠ "" ∧ d.db = none) := by
  constructor
  · intro c d h
    simp only [NewPostgreSQLDriverWithConfig] at h
    cases hv : validateDatabaseConfig c with
    | none => rw [hv] at h; cases h; exact ⟨(validate_none_iff c).mp hv, rfl⟩
    | some e => rw [hv] at h; cases h
  · intro env d h
    unfold NewPostgreSQLDriver at h
    cases hL : LoadDatabaseConfig env with
    | error e => rw [hL] at h; cases h
    | ok cfg =>
      rw [hL] at h
      cases h
      have hf := load_ok_fields env cfg hL
      exact ⟨hf.1, hf.2.1, hf.2.2.1, hf.2.2.2, rfl⟩

/-- Witness for amended C2: the validated path at a concrete valid config. -/
theorem constructed_config_validation_witness :
    ConfigOK ({ config := cfg0, db := none } : PostgreSQLDriver).config ∧
      ({ config := cfg0, db := none } : PostgreSQLDriver).db = none :=
  constructed_config_validation.1 cfg0 { config := cfg0, db := none } rfl

/-- Counterexample to C3 as stated: after a successful `Connect`, a `Close`
that reports no error leaves the stored handle field set — `GetDB` returns
the same handle, not absent — and the same holds on the error path. -/
theorem close_keeps_handle_counterexample :
    ((run [Op.connect true true] (d0, w0)).1.Close false
        (run [Op.connect true true] (d0, w0)).2).1 = none ∧
    ((run [Op.connect true true] (d0, w0)).1.Close false
        (run [Op.connect true true] (d0, w0)).2).2.1.GetDB = some 0 ∧
    ((run [Op.connect true true] (d0, w0)).1.Close true
        (run [Op.connect true true] (d0, w0)).2).2.1.GetDB = some 0 :=
  ⟨rfl, rfl, rfl⟩

/-- Claim C3, amended: with a stored handle, `Close` closes the underlying
pool and surfaces the close error, but never clears the stored field: `GetDB`
afterwards returns the same (now closed) handle on both the success and the
error path; `IsConnected` is false afterwards because a ping on a closed pool
fails. -/
theorem close_surfaces_error_keeps_field (d : PostgreSQLDriver) (w : World)
    (h : Nat) (e netOk : Bool) (hdb : d.db = some h) :
    d.Close e w =
      ((if e then some ConnectionError.closeFailed else none), d, w.closeHandle h) ∧
    (d.Close e w).2.1.GetDB = some h ∧
    (d.Close e w).2.1.IsConnected netOk (d.Close e w).2.2 = false := by
  have heq : d.Close e w =
      ((if e then some ConnectionError.closeFailed else none), d, w.closeHandle h) := by
    unfold PostgreSQLDriver.Close
    rw [hdb]
    cases e <;> rfl
  refine ⟨heq, ?_, ?_⟩
  · rw [heq]; exact hdb
  · rw [heq]
    show d.IsConnected netOk (w.closeHandle h) = false
    unfold PostgreSQLDriver.IsConnected
    rw [hdb]
    simp [isOpen_closeHandle]

/-- Witness for amended C3 at a concrete connected manager, error path. -/
theorem close_surfaces_error_keeps_field_witness :
    d1.Close true w1 =
      ((if true then some ConnectionError.closeFailed else none), d1, w1.closeHandle 0) ∧
    (d1.Close true w1).2.1.GetDB = some 0 ∧
    (d1.Close true w1).2.1.IsConnected true (d1.Close true w1).2.2 = false :=
  close_surfaces_error_keeps_field d1 w1 0 true true rfl

/-- Counterexample to C4 as stated: the sequence of two successful `Connect`
calls leaves two handles open at once, and handle 0 is open but no longer the
stored one — live yet unreachable, never closed by any later call in the
sequence. -/
theorem double_connect_two_live_counterexample :
    (run [Op.connect true true, Op.connect true true] (d0, w0)).2.handles.length = 2 ∧
    (run [Op.connect true true, Op.connect true true] (d0, w0)).2.isOpen 0 = true ∧
    (run [Op.connect true true, Op.connect true true] (d0, w0)).1.GetDB = some 1 := by
  decide

/-- Claim C4, amended: for every operation sequence in which `Connect` is
never invoked while the stored handle is still open (the discipline of the
state machine in the spec; `Close`, `Reconnect` and the queries are
unrestricted), the manager owns at most one open handle at any point and
every open handle is the stored one — no handle is left open but
unreachable. -/
theorem handle_ownership (ops : List Op) (s : PostgreSQLDriver × World)
    (hinv : Inv s) (hsafe : safeOps ops s = true) : Inv (run ops s) := by
  induction ops generalizing s with
  | nil => exact hinv
  | cons op ops ih =>
    unfold safeOps at hsafe
    rw [Bool.and_eq_true] at hsafe
    obtain ⟨hg, hrest⟩ := hsafe
    show Inv (run ops (step op s))
    refine ih (step op s) ?_ hrest
    cases op with
    | connect a b => exact inv_connect a b s.1 s.2 hinv hg
    | close e => exact inv_close e s.1 s.2 hinv
    | reconnect a b => exact inv_reconnect a b s.1 s.2 hinv
    | isConnectedQ n => exact hinv
    | getDBQ => exact hinv
    | getConfigQ => exact hinv
    | statsQ => exact hinv

/-- Witness for amended C4: a guarded connect, close, connect again run. -/
theorem handle_ownership_witness :
    Inv (run [Op.connect true true, Op.close false, Op.connect true true] (d0, w0)) :=
  handle_ownership [Op.connect true true, Op.close false, Op.connect true true]
    (d0, w0) (by decide) (by decide)

/-- Claim C5: `BuildConnectionString` interpolates the six fields verbatim in
the fixed order host, port, user, password, dbname, sslmode with single-space
separators, and on the fixed config of the claim produces exactly the quoted
string. -/
theorem buildConnectionString_exact :
    (∀ c : DatabaseConfig, c.BuildConnectionString =
      "host=" ++ c.Host ++ " port=" ++ toString c.Port ++ " user=" ++ c.User ++
        " password=" ++ c.Password ++ " dbname=" ++ c.Database ++
        " sslmode=" ++ c.SSLMode) ∧
    cfg0.BuildConnectionString =
      "host=localhost port=5432 user=testuser password=testpass dbname=testdb sslmode=require" :=
  ⟨fun c => rfl, by decide⟩

/-- Claim C6: `NewPostgreSQLDriverWithConfig` fails exactly on a nil config
or one violating the constraint table, and on success returns a driver
holding that config with an absent handle — no connection is attempted. -/
theorem newDriverWithConfig_gate :
    NewPostgreSQLDriverWithConfig none = .error .nilConfig ∧
    (∀ c : DatabaseConfig,
      (∃ d, NewPostgreSQLDriverWithConfig (some c) = .ok d) ↔ ConfigOK c) ∧
    (∀ c d, NewPostgreSQLDriverWithConfig (some c) = .ok d →
      d.config = c ∧ d.db = none) := by
  refine ⟨rfl, fun c => ?_, fun c d h => ?_⟩
  · simp only [NewPostgreSQLDriverWithConfig]
    cases hv : validateDatabaseConfig c with
    | none => simpa using (validate_none_iff c).mp hv
    | some e =>
      simp only
      constructor
      · rintro ⟨d, hd⟩; cases hd
      · intro hok
        exact absurd hv (by rw [(validate_none_iff c).mpr hok]; simp)
  · simp only [NewPostgreSQLDriverWithConfig] at h
    cases hv : validateDatabaseConfig c with
    | none => rw [hv] at h; cases h; exact ⟨rfl, rfl⟩
    | some e => rw [hv] at h; cases h

/-- Witness for C6 at a concrete valid config. -/
theorem newDriverWithConfig_gate_witness :
    ({ config := cfg0, db := none } : PostgreSQLDriver).config = cfg0 ∧
      ({ config := cfg0, db := none } : PostgreSQLDriver).db = none :=
  newDriverWithConfig_gate.2.2 cfg0 { config := cfg0, db := none } rfl

/-- Claim C7: the loader fails exactly when the port setting is present but
fails to parse with `strconv.Atoi` (the non-numeric condition of the spec),
or one of user, password, database is unset/empty; on every success path the
unset optional settings take the defaults host localhost, port 5432, sslMode
require. -/
theorem loadDatabaseConfig_gate (env : Env) :
    (exceptIsOk (LoadDatabaseConfig env) = false ↔
      ((env "DB_PORT" ≠ "" ∧ Atoi (env "DB_PORT") = none) ∨
        env "DB_USER" = "" ∨ env "DB_PASSWORD" = "" ∨ env "DB_NAME" = "")) ∧
    (∀ cfg, LoadDatabaseConfig env = .ok cfg →
      (env "DB_HOST" = "" → cfg.Host = "localhost") ∧
      (env "DB_PORT" = "" → cfg.Port = 5432) ∧
      (env "DB_SSL_MODE" = "" → cfg.SSLMode = "require")) := by
  have h5432 : Atoi "5432" = some 5432 := by decide
  constructor
  · by_cases hp : env "DB_PORT" = ""
    · simp only [LoadDatabaseConfig, hp, if_true, reduceIte, h5432]
      split_ifs <;> simp_all [exceptIsOk]
    · simp only [LoadDatabaseConfig, if_neg hp]
      cases hA : Atoi (env "DB_PORT") with
      | none => simp_all [exceptIsOk]
      | some v =>
        simp only [hA]
        split_ifs <;> simp_all [exceptIsOk]
  · intro cfg hcfg
    by_cases hp : env "DB_PORT" = ""
    · simp only [LoadDatabaseConfig, hp, if_true, reduceIte, h5432] at hcfg
      split_ifs at hcfg <;> simp_all
      all_goals (subst hcfg; simp)
    · simp only [LoadDatabaseConfig, if_neg hp] at hcfg
      cases hA : Atoi (env "DB_PORT") with
      | none => simp_all
      | some v =>
        simp only [hA] at hcfg
        split_ifs at hcfg <;> simp_all
        all_goals (subst hcfg; simp)

/-- Witness for C7 at the environment holding only the required settings. -/
theorem loadDatabaseConfig_gate_witness :
    (envReq "DB_HOST" = "" → cfgReq.Host = "localhost") ∧
    (envReq "DB_PORT" = "" → cfgReq.Port = 5432) ∧
    (envReq "DB_SSL_MODE" = "" → cfgReq.SSLMode = "require") :=
  (loadDatabaseConfig_gate envReq).2 cfgReq rfl

/-- Claim C8: a manager whose connection attempts (if any) all failed still
has an absent handle, so `GetDB` returns absent, `IsConnected` is false,
`Close` is a no-op returning no error, and `GetConnectionStats` returns the
all-zero snapshot. -/
theorem never_connected_behaviour (ops : List Op) (d : PostgreSQLDriver)
    (w : World) (statsOf : Nat → DBStats) (netOk closeErr : Bool)
    (hdb : d.db = none) (hops : ∀ op ∈ ops, notSuccessfulConnect op = true) :
    (run ops (d, w)).1.GetDB = none ∧
    (run ops (d, w)).1.IsConnected netOk (run ops (d, w)).2 = false ∧
    (run ops (d, w)).1.Close closeErr (run ops (d, w)).2 =
      (none, (run ops (d, w)).1, (run ops (d, w)).2) ∧
    (run ops (d, w)).1.GetConnectionStats statsOf = {} := by
  have hn := run_db_none ops d w hdb hops
  refine ⟨hn, ?_, ?_, ?_⟩
  · unfold PostgreSQLDriver.IsConnected
    rw [hn]
  · unfold PostgreSQLDriver.Close
    rw [hn]
  · unfold PostgreSQLDriver.GetConnectionStats
    rw [hn]

/-- Witness for C8: a failed connect followed by a close. -/
theorem never_connected_behaviour_witness :
    (run [Op.connect true false, Op.close true] (d0, w0)).1.GetDB = none ∧
    (run [Op.connect true false, Op.close true] (d0, w0)).1.IsConnected true
      (run [Op.connect true false, Op.close true] (d0, w0)).2 = false ∧
    (run [Op.connect true false, Op.close true] (d0, w0)).1.Close true
      (run [Op.connect true false, Op.close true] (d0, w0)).2 =
      (none, (run [Op.connect true false, Op.close true] (d0, w0)).1,
        (run [Op.connect true false, Op.close true] (d0, w0)).2) ∧
    (run [Op.connect true false, Op.close true] (d0, w0)).1.GetConnectionStats
      (fun _ => {}) = {} :=
  never_connected_behaviour [Op.connect true false, Op.close true] d0 w0
    (fun _ => {}) true true rfl (by decide)

/-- Claim C9: `Reconnect` equals the composition close-if-present (error
discarded) followed by `Connect`; on failure the driver record is unchanged
apart from the returned error, and on success the manager ends connected:
the stored handle exists and is open. -/
theorem reconnect_refines_close_then_connect (a b e : Bool)
    (d : PostgreSQLDriver) (w : World) :
    d.Reconnect a b w = closeThenConnect a b e d w ∧
    (∀ err d2 w2, d.Reconnect a b w = (some err, d2, w2) → d2 = d) ∧
    ((d.Reconnect a b w).1 = none →
      ∃ h, (d.Reconnect a b w).2.1.db = some h ∧
        (d.Reconnect a b w).2.2.isOpen h = true) := by
  refine ⟨?_, ?_, ?_⟩
  · unfold PostgreSQLDriver.Reconnect closeThenConnect PostgreSQLDriver.Close
    cases hdb : d.db with
    | none => cases e <;> rfl
    | some h0 => cases e <;> rfl
  · intro err d2 w2 hre
    have hfail : (d.Reconnect a b w).1 = some err := by rw [hre]
    have hab : (a && b) = false := by
      by_contra hab
      have ha : a = true := by cases a <;> simp_all
      have hb : b = true := by cases a <;> cases b <;> simp_all
      subst ha; subst hb
      unfold PostgreSQLDriver.Reconnect PostgreSQLDriver.Connect at hfail
      cases hdb : d.db <;> rw [hdb] at hfail <;> simp at hfail
    have hd := reconnect_fail_driver_eq a b hab d w
    rw [hre] at hd
    exact hd
  · intro hsucc
    have hab : a = true ∧ b = true := by
      by_contra hab
      unfold PostgreSQLDriver.Reconnect PostgreSQLDriver.Connect at hsucc
      cases hdb : d.db <;> rw [hdb] at hsucc <;> cases a <;> cases b <;> simp_all
    obtain ⟨ha, hb⟩ := hab
    subst ha; subst hb
    unfold PostgreSQLDriver.Reconnect PostgreSQLDriver.Connect
    cases hdb : d.db with
    | none =>
      dsimp only
      exact ⟨w.nextId, rfl, by simp [World.isOpen]⟩
    | some h0 =>
      dsimp only
      exact ⟨(w.closeHandle h0).nextId, rfl, by simp [World.isOpen]⟩

/-- Witness for C9: the failure case from a connected manager and the
success case from a fresh one. -/
theorem reconnect_refines_close_then_connect_witness :
    d1 = d1 ∧
    (∃ h, (d0.Reconnect true true w0).2.1.db = some h ∧
      (d0.Reconnect true true w0).2.2.isOpen h = true) :=
  ⟨(reconnect_refines_close_then_connect true false false d1 w1).2.1
      ConnectionError.pingFailed d1 ⟨2, []⟩ rfl,
   (reconnect_refines_close_then_connect true true false d0 w0).2.2 rfl⟩

/-- Claim C10: on a manager with no stored handle, `Reconnect` skips the
close step and is literally a plain `Connect`: same result, same final
state. -/
theorem reconnect_fresh_is_connect (a b : Bool) (d : PostgreSQLDriver)
    (w : World) (hdb : d.db = none) :
    d.Reconnect a b w = d.Connect a b w := by
  unfold PostgreSQLDriver.Reconnect
  rw [hdb]

/-- Witness for C10 at a freshly constructed manager. -/
theorem reconnect_fresh_is_connect_witness :
    d0.Reconnect true true w0 = d0.Connect true true w0 :=
  reconnect_fresh_is_connect true true d0 w0 rfl

end SiftDB
